import Mathlib

/-
Verification development for the country-counter Spin component
(src/src/lib.rs). The component records a visit keyed by a resolved
location in a remote SQL store and renders a scoreboard table plus a
map canvas. The store itself is an external collaborator; its statement
semantics are modelled below from the specification (SQLite semantics
for the seven fixed statements the component issues, and atomic
all-or-nothing application of a transaction batch).

Floating point coordinates are modelled exactly, as integers counting
millionths of a degree: the program only stores, compares for key
equality, and re-displays five fixed f64 literals (each with at most six
decimal places) and never performs floating point arithmetic on them, so
this scaling is a faithful, decidable encoding of those literals.
-/

namespace CountryCounter

/-- Cell values, modelling the libsql Value type (Null, Integer, Float,
Text) as it is used by this component. -/
inductive Value where
  | null
  | integer (i : Int)
  | float (q : Int)
  | text (s : String)
  deriving DecidableEq

/-- The textual form a value takes when interpolated by the Rust
formatting machinery in result_to_html_table and create_map_canvas. -/
def Value.display : Value → String
  | .null => "null"
  | .integer i => toString i
  | .float q => toString q
  | .text s => s

/-- One result row: named cells, as in the libsql row cells map. -/
structure Row where
  cells : List (String × Value)
  deriving DecidableEq

/-- Indexing a row by column name, as row.cells[column] does in the
source. The source panics on a missing column; no statement in this
development ever reads a column that is absent. -/
def Row.getCell (r : Row) (c : String) : Value :=
  match r.cells.lookup c with
  | some v => v
  | none => Value.null

/-- A successful result set: column names in order plus data rows. -/
structure ResultSet where
  columns : List String
  rows : List Row
  deriving DecidableEq

/-- A query result, modelling libsql QueryResult: either an error with a
message or a success carrying a result set. -/
inductive QueryResult where
  | error (msg : String)
  | success (rs : ResultSet)
  deriving DecidableEq

/-- Translation of result_to_html_table (src/src/lib.rs lines 12-31):
render a query result into an HTML table; an error result discards the
partially built markup and yields only the error text. -/
def result_to_html_table : QueryResult → String
  | .error msg => "Error: " ++ msg
  | .success result =>
    let html := "<table style=\"border: 1px solid\">"
    let html := result.columns.foldl
      (fun html column => html ++ "<th style=\"border: 1px solid\">" ++ column ++ "</th>") html
    let html := result.rows.foldl
      (fun html row =>
        let html := html ++ "<tr style=\"border: 1px solid\">"
        let html := result.columns.foldl
          (fun html column => html ++ "<td>" ++ (row.getCell column).display ++ "</td>") html
        html ++ "</tr>") html
    html ++ "</table>"

/-- The fixed leading script text built by create_map_canvas before it
inspects the query result (src/src/lib.rs lines 35-59). -/
def mapCanvasHeader : String :=
  "\n  <script src=\"https://cdnjs.cloudflare.com/ajax/libs/p5.js/0.5.16/p5.min.js\" type=\"text/javascript\"></script>\n  <script src=\"https://unpkg.com/mappa-mundi/dist/mappa.js\" type=\"text/javascript\"></script>\n    <script>\n    let myMap;\n    let canvas;\n    const mappa = new Mappa(\x27Leaflet\x27);\n    const options = \x7b\n      lat: 0,\n      lng: 0,\n      zoom: 1,\n      style: \"http://\x7bs\x7d.tile.osm.org/\x7bz\x7d/\x7bx\x7d/\x7by\x7d.png\"\n    \x7d\n    function setup()\x7b\n      canvas = createCanvas(640,480);\n      myMap = mappa.tileMap(options); \n      myMap.overlay(canvas) \n    \n      fill(200, 100, 100);\n      myMap.onChange(drawPoint);\n    \x7d\n    function draw()\x7b\n    \x7d\n    function drawPoint()\x7b\n      clear();\n      let point;"

/-- Translation of create_map_canvas (src/src/lib.rs lines 34-76): build
the map canvas script, one plotted point per coordinate row; an error
result discards the partially built script and yields only the error
text. -/
def create_map_canvas : QueryResult → String
  | .error msg => "Error: " ++ msg
  | .success result =>
    let canvas := mapCanvasHeader
    let canvas := result.rows.foldl
      (fun canvas row =>
        canvas ++ "point = myMap.latLngToPixel(" ++ (row.getCell ("lat")).display ++ ", "
          ++ (row.getCell ("long")).display ++ ");\nellipse(point.x, point.y, 10, 10);\ntext("
          ++ (row.getCell ("airport")).display ++ ", point.x, point.y);\n") canvas
    canvas ++ "\x7d</script>"

/-- One row of the counter table: counter(country TEXT, city TEXT, value,
PRIMARY KEY(country, city)). -/
structure CounterRow where
  country : String
  city : String
  value : Int
  deriving DecidableEq

/-- One row of the coordinates table: coordinates(lat INT, long INT,
airport TEXT, PRIMARY KEY (lat, long)); lat and long hold the f64
coordinate literals, modelled as millionths of a degree. -/
structure CoordRow where
  lat : Int
  long : Int
  airport : String
  deriving DecidableEq

/-- Modelled from the spec: the persistent state owned by the external
transactional SQL store (the Store Client collaborator): which tables
exist, and the contents of the counter and coordinates tables. -/
structure DBState where
  tables : List String
  counter : List CounterRow
  coordinates : List CoordRow
  deriving DecidableEq

/-- A store with no tables and no rows. -/
def emptyDB : DBState := ⟨[], [], []⟩

/-- The seven statement shapes the component issues, with their bound
parameters (src/src/lib.rs lines 97-102, 116-133, 135-140, 143-147). -/
inductive Stmt where
  | createCounter
  | createCoordinates
  | insertCounter (country city : String)
  | updateCounter (country city : String)
  | insertCoordinates (lat long : Int) (airport : String)
  | selectCounter
  | selectCoordinates
  deriving DecidableEq

/-- The exact SQL text of each statement as written in src/src/lib.rs,
with positional placeholders for the bound parameters. -/
def Stmt.sql : Stmt → String
  | .createCounter => "CREATE TABLE IF NOT EXISTS counter(country TEXT, city TEXT, value, PRIMARY KEY(country, city)) WITHOUT ROWID"
  | .createCoordinates => "CREATE TABLE IF NOT EXISTS coordinates(lat INT, long INT, airport TEXT, PRIMARY KEY (lat, long))"
  | .insertCounter _ _ => "INSERT INTO counter VALUES (?, ?, 0)"
  | .updateCounter _ _ => "UPDATE counter SET value = value + 1 WHERE country = ? AND city = ?"
  | .insertCoordinates _ _ _ => "INSERT INTO coordinates VALUES (?, ?, ?)"
  | .selectCounter => "SELECT * FROM counter"
  | .selectCoordinates => "SELECT airport, lat, long FROM coordinates"

/-- The parameter values bound to each statement, in binding order, as in
the Statement::with_params calls of the source. -/
def Stmt.params : Stmt → List Value
  | .createCounter => []
  | .createCoordinates => []
  | .insertCounter country city => [Value.text country, Value.text city]
  | .updateCounter country city => [Value.text country, Value.text city]
  | .insertCoordinates lat long airport => [Value.float lat, Value.float long, Value.text airport]
  | .selectCounter => []
  | .selectCoordinates => []

/-- An empty result set, as returned for data-modifying statements. -/
def emptyResult : QueryResult := QueryResult.success ⟨[], []⟩

/-- The result row produced for a counter row by SELECT * FROM counter. -/
def counterResultRow (r : CounterRow) : Row :=
  ⟨[("country", Value.text r.country), ("city", Value.text r.city), ("value", Value.integer r.value)]⟩

/-- The result row produced for a coordinates row by
SELECT airport, lat, long FROM coordinates. -/
def coordResultRow (r : CoordRow) : Row :=
  ⟨[("airport", Value.text r.airport), ("lat", Value.float r.lat), ("long", Value.float r.long)]⟩

/-- Modelled from the spec: single-statement execution by the external
SQL store (libsql/SQLite semantics for the seven fixed statements the
component issues). CREATE TABLE IF NOT EXISTS never reports a
duplicate-definition error; a plain INSERT whose primary key already
exists fails with a UNIQUE constraint error; UPDATE increments every
matching row; SELECT returns all rows with column names in order. An
error is returned as Except.error with the error message. -/
def execStmt : Stmt → DBState → Except String (QueryResult × DBState)
  | .createCounter, s =>
    if "counter" ∈ s.tables then Except.ok (emptyResult, s)
    else Except.ok (emptyResult, { s with tables := s.tables ++ ["counter"] })
  | .createCoordinates, s =>
    if "coordinates" ∈ s.tables then Except.ok (emptyResult, s)
    else Except.ok (emptyResult, { s with tables := s.tables ++ ["coordinates"] })
  | .insertCounter country city, s =>
    if "counter" ∉ s.tables then Except.error ("no such table: counter")
    else if s.counter.any (fun r => r.country == country && r.city == city) then
      Except.error ("UNIQUE constraint failed: counter.country, counter.city")
    else Except.ok (emptyResult, { s with counter := s.counter ++ [⟨country, city, 0⟩] })
  | .updateCounter country city, s =>
    if "counter" ∉ s.tables then Except.error ("no such table: counter")
    else Except.ok (emptyResult,
      { s with counter := s.counter.map (fun r => if r.country == country && r.city == city then { r with value := r.value + 1 } else r) })
  | .insertCoordinates lat long airport, s =>
    if "coordinates" ∉ s.tables then Except.error ("no such table: coordinates")
    else if s.coordinates.any (fun r => r.lat == lat && r.long == long) then
      Except.error ("UNIQUE constraint failed: coordinates.lat, coordinates.long")
    else Except.ok (emptyResult, { s with coordinates := s.coordinates ++ [⟨lat, long, airport⟩] })
  | .selectCounter, s =>
    if "counter" ∉ s.tables then Except.error ("no such table: counter")
    else Except.ok (QueryResult.success ⟨["country", "city", "value"], s.counter.map counterResultRow⟩, s)
  | .selectCoordinates, s =>
    if "coordinates" ∉ s.tables then Except.error ("no such table: coordinates")
    else Except.ok (QueryResult.success ⟨["airport", "lat", "long"], s.coordinates.map coordResultRow⟩, s)

/-- Execute a statement and keep only the resulting store state; on an
error the store state is unchanged. This is how serve uses the two
bootstrap statements and the transaction, whose results it discards. -/
def applyStmt (st : Stmt) (s : DBState) : DBState :=
  match execStmt st s with
  | .ok (_, s1) => s1
  | .error _ => s

/-- Execute a read statement and keep only its query result; a statement
level error arrives in band as a QueryResult error, as the libsql client
delivers it. -/
def queryOf (st : Stmt) (s : DBState) : QueryResult :=
  match execStmt st s with
  | .ok (r, _) => r
  | .error e => QueryResult.error e

/-- Modelled from the spec: atomic batch execution by the external store
(the db.transaction call). The statements run in order; if any statement
fails the whole batch takes no effect (all-or-nothing), signalled by
none. -/
def runBatch : List Stmt → DBState → Option DBState
  | [], s => some s
  | st :: rest, s =>
    match execStmt st s with
    | .ok (_, s1) => runBatch rest s1
    | .error _ => none

/-- The three-statement visit-recording batch serve submits, in source
order (src/src/lib.rs lines 116-133). -/
def recordStmts (loc : String × String × String × Int × Int) : List Stmt :=
  let (airport, country, city, latitude, longitude) := loc
  [Stmt.insertCounter country city,
   Stmt.updateCounter country city,
   Stmt.insertCoordinates latitude longitude airport]

/-- Submit the visit-recording batch for a resolved location. -/
def recordVisit (s : DBState) (loc : String × String × String × Int × Int) : Option DBState :=
  runBatch (recordStmts loc) s

/-- The schema bootstrap serve performs on every request: the two CREATE
TABLE IF NOT EXISTS statements, results discarded (src/src/lib.rs lines
97-102). -/
def ensureSchema (s : DBState) : DBState :=
  applyStmt Stmt.createCoordinates (applyStmt Stmt.createCounter s)

/-- The fixed sample table of (airport code, country, city, lat, long)
entries (src/src/lib.rs lines 104-114); coordinates in millionths of a
degree. -/
def FAKE_LOCATIONS : List (String × String × String × Int × Int) :=
  [("WAW", "PL", "Warsaw", 52229590, 21006700),
   ("EWR", "US", "Newark", 42992590, -81332100),
   ("HAM", "DE", "Hamburg", 50118801, 7684300),
   ("HEL", "FI", "Helsinki", 60318300, 24949700),
   ("NSW", "AU", "Sydney", -33950000, 151181900)]

/-- The fixed-sample location resolver: FAKE_LOCATIONS.choose picks one
entry of the slice; the uniformly random index drawn from thread_rng is
externalized as the argument. -/
def resolveLocation (i : Fin 5) : String × String × String × Int × Int :=
  FAKE_LOCATIONS.get ⟨i.val, i.isLt⟩

/-- Modelled from the spec: a StoreError (connection or statement
failure) that the external store may report for each of the five store
round-trips serve performs; some msg means that round-trip fails with
that error text. -/
structure Faults where
  bootstrapCounter : Option String
  bootstrapCoordinates : Option String
  record : Option String
  readCounter : Option String
  readCoordinates : Option String
  deriving DecidableEq

/-- The fault-free store behavior. -/
def noFaults : Faults := ⟨none, none, none, none, none⟩

/-- Translation of serve (src/src/lib.rs lines 95-153): bootstrap the
schema (results, including errors, are discarded), resolve a location,
submit the visit-recording batch (result, including errors, discarded;
a failed batch leaves the store unchanged), then read the counter table
and the coordinates table; a store failure on either read aborts with
the error text as the whole body; otherwise the full page is assembled
around the rendered scoreboard and map canvas. Returns the body and the
final store state. -/
def serve (f : Faults) (s : DBState) (i : Fin 5) : String × DBState :=
  let s := match f.bootstrapCounter with
    | some _ => s
    | none => applyStmt Stmt.createCounter s
  let s := match f.bootstrapCoordinates with
    | some _ => s
    | none => applyStmt Stmt.createCoordinates s
  let loc := resolveLocation i
  let s := match f.record with
    | some _ => s
    | none => (recordVisit s loc).getD s
  match f.readCounter with
  | some e => ("Error: " ++ e, s)
  | none =>
    let scoreboard := result_to_html_table (queryOf Stmt.selectCounter s)
    match f.readCoordinates with
    | some e => ("Error: " ++ e, s)
    | none =>
      let canvas := create_map_canvas (queryOf Stmt.selectCoordinates s)
      (canvas ++ " Database powered by <a href=\"https://chiselstrike.com/\">Turso</a>. <br /> Scoreboard: <br /> " ++ scoreboard ++ " <footer>Map data from OpenStreetMap (https://tile.osm.org/)</footer>", s)

/-- Translation of handle_country_counter_spin (src/src/lib.rs lines
156-172): the HTTP handler builds its response with status 200 and the
body produced by serve, on every path. Returns (status, body) plus the
final store state. -/
def handle_country_counter_spin (f : Faults) (s : DBState) (i : Fin 5) :
    (Nat × String) × DBState :=
  ((200, (serve f s i).1), (serve f s i).2)

/-- The store state after one fault-free request resolved to location
index 0, Warsaw, starting from an empty store. -/
def afterFirstVisit : DBState := (serve noFaults emptyDB 0).2

/-- The counter result set of the render-correctness example: one row
(PL, Warsaw, 3). -/
def exampleRS : ResultSet :=
  ⟨["country", "city", "value"],
   [⟨[("country", Value.text ("PL")), ("city", Value.text ("Warsaw")), ("value", Value.integer 3)]⟩]⟩

/-- Number of occurrences of the markup-opening character in a string. -/
def openTagCount (s : String) : Nat := s.data.count ('<')

deriving instance DecidableEq for Except

theorem openTagCount_append (a b : String) :
    openTagCount (a ++ b) = openTagCount a + openTagCount b := by
  simp [openTagCount, String.data_append, List.count_append]

theorem thFold_openTagCount (cs : List String) : ∀ init : String,
    (∀ c ∈ cs, openTagCount c = 0) →
    openTagCount (cs.foldl (fun html column => html ++ "<th style=\"border: 1px solid\">" ++ column ++ "</th>") init)
      = openTagCount init + 2 * cs.length := by
  induction cs with
  | nil => intro init _; simp
  | cons c cs ih =>
    intro init h
    simp only [List.foldl_cons]
    rw [ih _ (fun x hx => h x (List.mem_cons_of_mem c hx)),
      openTagCount_append, openTagCount_append, openTagCount_append,
      h c (List.mem_cons_self c cs)]
    have h1 : openTagCount ("<th style=\"border: 1px solid\">") = 1 := by decide
    have h2 : openTagCount ("</th>") = 1 := by decide
    rw [h1, h2, List.length_cons]
    omega

theorem tdFold_openTagCount (row : Row) (cs : List String) : ∀ init : String,
    (∀ c ∈ cs, openTagCount ((row.getCell c).display) = 0) →
    openTagCount (cs.foldl (fun html column => html ++ "<td>" ++ (row.getCell column).display ++ "</td>") init)
      = openTagCount init + 2 * cs.length := by
  induction cs with
  | nil => intro init _; simp
  | cons c cs ih =>
    intro init h
    simp only [List.foldl_cons]
    rw [ih _ (fun x hx => h x (List.mem_cons_of_mem c hx)),
      openTagCount_append, openTagCount_append, openTagCount_append,
      h c (List.mem_cons_self c cs)]
    have h1 : openTagCount ("<td>") = 1 := by decide
    have h2 : openTagCount ("</td>") = 1 := by decide
    rw [h1, h2, List.length_cons]
    omega

theorem trFold_openTagCount (cols : List String) (rows : List Row) : ∀ init : String,
    (∀ r ∈ rows, ∀ c ∈ cols, openTagCount ((r.getCell c).display) = 0) →
    openTagCount (rows.foldl (fun html row =>
        let html := html ++ "<tr style=\"border: 1px solid\">"
        let html := cols.foldl (fun html column => html ++ "<td>" ++ (row.getCell column).display ++ "</td>") html
        html ++ "</tr>") init)
      = openTagCount init + rows.length * (2 + 2 * cols.length) := by
  induction rows with
  | nil => intro init _; simp
  | cons r rows ih =>
    intro init h
    simp only [List.foldl_cons]
    rw [ih _ (fun x hx => h x (List.mem_cons_of_mem r hx)), openTagCount_append,
      tdFold_openTagCount r cols _ (h r (List.mem_cons_self r rows)), openTagCount_append]
    have h1 : openTagCount ("<tr style=\"border: 1px solid\">") = 1 := by decide
    have h2 : openTagCount ("</tr>") = 1 := by decide
    rw [h1, h2, List.length_cons]
    ring

theorem ensureSchema_of_mem (s : DBState) (h1 : "counter" ∈ s.tables)
    (h2 : "coordinates" ∈ s.tables) : ensureSchema s = s := by
  simp [ensureSchema, applyStmt, execStmt, h1, h2]

theorem mem_tables_ensureSchema (s : DBState) :
    "counter" ∈ (ensureSchema s).tables ∧ "coordinates" ∈ (ensureSchema s).tables := by
  unfold ensureSchema
  by_cases h1 : "counter" ∈ s.tables <;>
    by_cases h2 : "coordinates" ∈ s.tables <;>
      simp [applyStmt, execStmt, h1, h2, List.mem_append]

theorem queryOf_selectCounter (s : DBState) (h : "counter" ∈ s.tables) :
    queryOf Stmt.selectCounter s
      = QueryResult.success ⟨["country", "city", "value"], s.counter.map counterResultRow⟩ := by
  simp [queryOf, execStmt, h]

/-- Claim C1 (code bug): the claim says that after any sequence of visit
recordings resolved to one (country, city) pair the counter row value
equals the number of such requests, e.g. value 2 after recording the same
key twice. Evaluating the code on two fault-free requests both resolved
to (PL, Warsaw) from an empty store: after the first request the counter
row is (PL, Warsaw, 1); the second request's batch fails, because its
plain INSERT INTO counter hits the existing (country, city) primary key,
so the whole atomic batch takes no effect and the value stays 1, not 2. -/
theorem counter_value_stuck_after_duplicate_visit :
    afterFirstVisit.counter = [⟨"PL", "Warsaw", 1⟩]
    ∧ recordVisit afterFirstVisit (resolveLocation 0) = none
    ∧ ((serve noFaults afterFirstVisit 0).2).counter = [⟨"PL", "Warsaw", 1⟩] :=
  ⟨by decide, by decide, by decide⟩

/-- Claim C2 (code bug): the claim says both inserts of the batch have
insert-or-ignore semantics. The SQL the code issues is a plain INSERT
(no OR IGNORE), so on a state that already holds the key each insert
fails with a UNIQUE constraint error instead of being a no-op, and the
visit-recording batch for an already-visited location fails as a whole. -/
theorem plain_insert_errors_on_duplicate_key :
    Stmt.sql (Stmt.insertCounter ("PL") ("Warsaw")) = "INSERT INTO counter VALUES (?, ?, 0)"
    ∧ Stmt.sql (Stmt.insertCoordinates 52229590 21006700 ("WAW")) = "INSERT INTO coordinates VALUES (?, ?, ?)"
    ∧ execStmt (Stmt.insertCounter ("PL") ("Warsaw")) afterFirstVisit
        = Except.error ("UNIQUE constraint failed: counter.country, counter.city")
    ∧ execStmt (Stmt.insertCoordinates 52229590 21006700 ("WAW")) afterFirstVisit
        = Except.error ("UNIQUE constraint failed: coordinates.lat, coordinates.long")
    ∧ recordVisit afterFirstVisit (resolveLocation 0) = none :=
  ⟨rfl, rfl, by decide, by decide, by decide⟩

/-- Claim C3: for every request the visit recorder submits one batch of
exactly three statements, in source order: insert the counter row with
value 0, increment the matching counter value by 1, insert the
coordinates row; and the batch is atomic: either all three statements
take effect in order, or the batch fails and the store keeps its prior
state (none). -/
theorem record_visit_batch_three_statements_atomic
    (airport country city : String) (latitude longitude : Int) (s : DBState) :
    (recordStmts (airport, country, city, latitude, longitude)).map Stmt.sql
      = ["INSERT INTO counter VALUES (?, ?, 0)",
         "UPDATE counter SET value = value + 1 WHERE country = ? AND city = ?",
         "INSERT INTO coordinates VALUES (?, ?, ?)"]
    ∧ (recordStmts (airport, country, city, latitude, longitude)).map Stmt.params
      = [[Value.text country, Value.text city],
         [Value.text country, Value.text city],
         [Value.float latitude, Value.float longitude, Value.text airport]]
    ∧ (recordStmts (airport, country, city, latitude, longitude)).length = 3
    ∧ ((∃ s3, recordVisit s (airport, country, city, latitude, longitude) = some s3
          ∧ ∃ r1 s1 r2 s2 r3,
              execStmt (Stmt.insertCounter country city) s = Except.ok (r1, s1)
              ∧ execStmt (Stmt.updateCounter country city) s1 = Except.ok (r2, s2)
              ∧ execStmt (Stmt.insertCoordinates latitude longitude airport) s2 = Except.ok (r3, s3))
        ∨ recordVisit s (airport, country, city, latitude, longitude) = none) := by
  refine ⟨rfl, rfl, rfl, ?_⟩
  rcases hx1 : execStmt (Stmt.insertCounter country city) s with e1 | v1
  · right; simp [recordVisit, recordStmts, runBatch, hx1]
  · obtain ⟨r1, s1⟩ := v1
    rcases hx2 : execStmt (Stmt.updateCounter country city) s1 with e2 | v2
    · right; simp [recordVisit, recordStmts, runBatch, hx1, hx2]
    · obtain ⟨r2, s2⟩ := v2
      rcases hx3 : execStmt (Stmt.insertCoordinates latitude longitude airport) s2 with e3 | v3
      · right; simp [recordVisit, recordStmts, runBatch, hx1, hx2, hx3]
      · obtain ⟨r3, s3⟩ := v3
        left
        exact ⟨s3, by simp [recordVisit, recordStmts, runBatch, hx1, hx2, hx3], r1, s1, r2, s2, r3, rfl, hx2, hx3⟩

/-- Claim C4, counterexample: the claim says a StoreError at bootstrap or
record time aborts the request with the error text as the whole body. At
the concrete input where the store fails the first bootstrap statement
with message boom, serve does not abort: the body is not the error text,
and the full page, with the scoreboard section and the footer, is still
assembled. -/
theorem bootstrap_error_ignored_page_still_rendered :
    (serve ⟨some ("boom"), none, none, none, none⟩ emptyDB 0).1 ≠ "Error: boom"
    ∧ ∃ canvas scoreboard, (serve ⟨some ("boom"), none, none, none, none⟩ emptyDB 0).1
        = canvas ++ " Database powered by <a href=\"https://chiselstrike.com/\">Turso</a>. <br /> Scoreboard: <br /> " ++ scoreboard ++ " <footer>Map data from OpenStreetMap (https://tile.osm.org/)</footer>" :=
  ⟨by decide, ⟨_, _, rfl⟩⟩

/-- Claim C4, amended: StoreErrors reported for the bootstrap statements
or the visit-recording batch are discarded and the request proceeds to
the read and render stages; only a StoreError on one of the two read
queries aborts the request, and then the body is exactly the error
text. -/
theorem read_errors_abort_with_error_body :
    (∀ f s i e, f.readCounter = some e → (serve f s i).1 = "Error: " ++ e)
    ∧ (∀ f s i e, f.readCounter = none → f.readCoordinates = some e →
        (serve f s i).1 = "Error: " ++ e)
    ∧ (∀ f s i, f.readCounter = none → f.readCoordinates = none →
        ∃ canvas scoreboard, (serve f s i).1
          = canvas ++ " Database powered by <a href=\"https://chiselstrike.com/\">Turso</a>. <br /> Scoreboard: <br /> " ++ scoreboard ++ " <footer>Map data from OpenStreetMap (https://tile.osm.org/)</footer>") := by
  refine ⟨?_, ?_, ?_⟩ <;> intro f s i
  · intro e he
    simp only [serve, he]
  · intro e h1 h2
    simp only [serve, h1, h2]
  · intro h1 h2
    simp only [serve, h1, h2]
    exact ⟨_, _, rfl⟩

/-- Witness for the amended claim C4: with a concrete store failure on
the counter read, the whole body is exactly the error text. -/
theorem read_errors_abort_with_error_body_witness :
    (serve ⟨none, none, none, some ("read failed"), none⟩ emptyDB 0).1 = "Error: " ++ "read failed" :=
  read_errors_abort_with_error_body.1 ⟨none, none, none, some ("read failed"), none⟩ emptyDB 0 ("read failed") rfl

/-- Claim C5: the counter read happens strictly after the
visit-recording batch, on the state the batch produced; whenever the
batch for the location resolved to (PL, Warsaw) succeeds, the counter
read on the resulting state returns a result set containing a row with
country PL, city Warsaw and a value of at least 1 (read-your-writes). -/
theorem read_your_writes_after_successful_record (s s' : DBState)
    (h : recordVisit s (resolveLocation 0) = some s') :
    ∃ rs, queryOf Stmt.selectCounter s' = QueryResult.success rs ∧
      ∃ r ∈ rs.rows, r.getCell ("country") = Value.text ("PL")
        ∧ r.getCell ("city") = Value.text ("Warsaw")
        ∧ ∃ v : Int, r.getCell ("value") = Value.integer v ∧ 1 ≤ v := by
  have hloc : resolveLocation 0 = ("WAW", "PL", "Warsaw", 52229590, 21006700) := by decide
  rw [hloc] at h
  by_cases h1 : "counter" ∈ s.tables
  · cases h2 : s.counter.any (fun r => r.country == "PL" && r.city == "Warsaw") with
    | true =>
      exfalso
      simp [recordVisit, recordStmts, runBatch, execStmt, h1, h2] at h
    | false =>
      by_cases h3 : "coordinates" ∈ s.tables
      · cases h4 : s.coordinates.any (fun r => r.lat == 52229590 && r.long == 21006700) with
        | true =>
          exfalso
          simp [recordVisit, recordStmts, runBatch, execStmt, h1, h2, h3, h4] at h
        | false =>
          simp [recordVisit, recordStmts, runBatch, execStmt, h1, h2, h3, h4] at h
          subst h
          refine ⟨_, queryOf_selectCounter _ h1, counterResultRow ⟨"PL", "Warsaw", 1⟩, ?_, rfl, rfl, 1, rfl, le_refl 1⟩
          exact List.mem_map_of_mem _ (List.mem_append_right _ (List.mem_singleton_self _))
      · exfalso
        simp [recordVisit, recordStmts, runBatch, execStmt, h1, h2, h3] at h
  · exfalso
    simp [recordVisit, recordStmts, runBatch, execStmt, h1] at h

/-- Witness for claim C5: from a freshly bootstrapped empty store, the
Warsaw batch succeeds and the counter read on the resulting state holds
the (PL, Warsaw) row with value 1. -/
theorem read_your_writes_after_successful_record_witness :
    ∃ rs, queryOf Stmt.selectCounter
        (⟨["counter", "coordinates"], [⟨"PL", "Warsaw", 1⟩], [⟨52229590, 21006700, "WAW"⟩]⟩ : DBState)
      = QueryResult.success rs ∧
      ∃ r ∈ rs.rows, r.getCell ("country") = Value.text ("PL")
        ∧ r.getCell ("city") = Value.text ("Warsaw")
        ∧ ∃ v : Int, r.getCell ("value") = Value.integer v ∧ 1 ≤ v :=
  read_your_writes_after_successful_record ⟨["counter", "coordinates"], [], []⟩
    ⟨["counter", "coordinates"], [⟨"PL", "Warsaw", 1⟩], [⟨52229590, 21006700, "WAW"⟩]⟩ (by decide)

/-- Claim C6: the schema bootstrap is idempotent. Both CREATE statements
carry IF NOT EXISTS, neither ever reports a duplicate-definition error,
iterating the bootstrap N times (N at least 1) from an empty store leaves
exactly the two tables counter and coordinates, and a second bootstrap
application never changes the store state left by a first one. -/
theorem schema_bootstrap_idempotent :
    Stmt.sql Stmt.createCounter = "CREATE TABLE IF NOT EXISTS counter(country TEXT, city TEXT, value, PRIMARY KEY(country, city)) WITHOUT ROWID"
    ∧ Stmt.sql Stmt.createCoordinates = "CREATE TABLE IF NOT EXISTS coordinates(lat INT, long INT, airport TEXT, PRIMARY KEY (lat, long))"
    ∧ (∀ s, ∃ r s1, execStmt Stmt.createCounter s = Except.ok (r, s1))
    ∧ (∀ s, ∃ r s1, execStmt Stmt.createCoordinates s = Except.ok (r, s1))
    ∧ (∀ N, 1 ≤ N → (ensureSchema^[N] emptyDB).tables = ["counter", "coordinates"])
    ∧ (∀ s, ensureSchema (ensureSchema s) = ensureSchema s) := by
  refine ⟨rfl, rfl, ?_, ?_, ?_, ?_⟩
  · intro s
    unfold execStmt
    by_cases h : "counter" ∈ s.tables <;> simp [h]
  · intro s
    unfold execStmt
    by_cases h : "coordinates" ∈ s.tables <;> simp [h]
  · have hiter : ∀ n, ensureSchema^[n + 1] emptyDB = ensureSchema emptyDB := by
      intro n
      induction n with
      | zero => rfl
      | succ k ih =>
        rw [Function.iterate_succ_apply', ih,
          ensureSchema_of_mem _ (mem_tables_ensureSchema emptyDB).1 (mem_tables_ensureSchema emptyDB).2]
    intro N hN
    obtain ⟨n, rfl⟩ : ∃ n, N = n + 1 := ⟨N - 1, by omega⟩
    rw [hiter]
    decide
  · intro s
    exact ensureSchema_of_mem _ (mem_tables_ensureSchema s).1 (mem_tables_ensureSchema s).2

/-- Witness for claim C6: three bootstrap iterations from the empty store
leave exactly the two tables. -/
theorem schema_bootstrap_idempotent_witness :
    (ensureSchema^[3] emptyDB).tables = ["counter", "coordinates"] :=
  schema_bootstrap_idempotent.2.2.2.2.1 3 (by decide)

/-- Claim C7: the fixed-sample resolver draws from the five-entry table
FAKE_LOCATIONS; every uniformly random index yields an entry of the
table, each produced value is produced by exactly one of the five
indices, so a uniform index gives each entry probability one fifth, and
every resolved tuple is fully populated: its code, country and city are
nonempty and its coordinates are present by construction. -/
theorem resolver_uniform_over_fake_locations :
    FAKE_LOCATIONS.length = 5
    ∧ (∀ i : Fin 5, resolveLocation i ∈ FAKE_LOCATIONS)
    ∧ (∀ i : Fin 5, (Finset.univ.filter fun j : Fin 5 => resolveLocation j = resolveLocation i).card = 1)
    ∧ (∀ i : Fin 5, (resolveLocation i).1 ≠ "" ∧ (resolveLocation i).2.1 ≠ "" ∧ (resolveLocation i).2.2.1 ≠ "") :=
  ⟨rfl, by decide, by decide, by decide⟩

/-- Claim C8, counterexample: the claim says cell values are escaped as
plain text. Rendering a result whose single cell value is an HTML
fragment emits that fragment verbatim inside the table cell, with no
escaping anywhere in the output (the output contains no ampersand, so no
entity encoding took place). -/
theorem render_table_does_not_escape_cells :
    result_to_html_table (QueryResult.success ⟨["city"], [⟨[("city", Value.text ("<b>bold</b>"))]⟩]⟩)
      = "<table style=\"border: 1px solid\"><th style=\"border: 1px solid\">city</th><tr style=\"border: 1px solid\"><td><b>bold</b></td></tr></table>"
    ∧ (result_to_html_table (QueryResult.success ⟨["city"], [⟨[("city", Value.text ("<b>bold</b>"))]⟩]⟩)).data.count ('&') = 0 :=
  ⟨rfl, by decide⟩

/-- Claim C8, amended: renderTable emits one header cell per column name
and one table row per data row, interpolating each cell value verbatim
with no escaping. Counting markup-opening characters: the table tag and
its closing tag contribute 2, each header cell 2, and each data row 2
plus 2 per column, when column names and displayed cell values are
markup-free; and on the counter rows [(PL, Warsaw, 3)] the output is the
exact table whose data row holds the literal cells PL, Warsaw and 3. -/
theorem render_table_header_and_row_counts (rs : ResultSet)
    (hcols : ∀ c ∈ rs.columns, openTagCount c = 0)
    (hcells : ∀ r ∈ rs.rows, ∀ c ∈ rs.columns, openTagCount ((r.getCell c).display) = 0) :
    openTagCount (result_to_html_table (QueryResult.success rs))
      = 2 + 2 * rs.columns.length + rs.rows.length * (2 + 2 * rs.columns.length)
    ∧ result_to_html_table (QueryResult.success exampleRS)
      = "<table style=\"border: 1px solid\"><th style=\"border: 1px solid\">country</th><th style=\"border: 1px solid\">city</th><th style=\"border: 1px solid\">value</th><tr style=\"border: 1px solid\"><td>PL</td><td>Warsaw</td><td>3</td></tr></table>" := by
  constructor
  · simp only [result_to_html_table]
    rw [openTagCount_append, trFold_openTagCount rs.columns rs.rows _ hcells,
      thFold_openTagCount rs.columns _ hcols]
    have h1 : openTagCount ("<table style=\"border: 1px solid\">") = 1 := by decide
    have h2 : openTagCount ("</table>") = 1 := by decide
    rw [h1, h2]
    ring
  · rfl

/-- Witness for the amended claim C8 at the example result set. -/
theorem render_table_header_and_row_counts_witness :
    openTagCount (result_to_html_table (QueryResult.success exampleRS))
      = 2 + 2 * exampleRS.columns.length + exampleRS.rows.length * (2 + 2 * exampleRS.columns.length)
    ∧ result_to_html_table (QueryResult.success exampleRS)
      = "<table style=\"border: 1px solid\"><th style=\"border: 1px solid\">country</th><th style=\"border: 1px solid\">city</th><th style=\"border: 1px solid\">value</th><tr style=\"border: 1px solid\"><td>PL</td><td>Warsaw</td><td>3</td></tr></table>" :=
  render_table_header_and_row_counts exampleRS (by decide) (by decide)

/-- Claim C9: the HTTP handler builds every response with status 200,
whether the pipeline succeeds or any stage fails; the body is whatever
serve produced (full page or error text), and the status never differs
between the two. -/
theorem handler_always_status_200 (f : Faults) (s : DBState) (i : Fin 5) :
    (handle_country_counter_spin f s i).1.1 = 200
    ∧ (handle_country_counter_spin f s i).1.2 = (serve f s i).1 :=
  ⟨rfl, rfl⟩

/-- Claim C10: on a query result carrying an error with message m, both
renderers return exactly the string Error: followed by m, discarding any
partially built table or script markup. -/
theorem error_result_renders_error_text_only (msg : String) :
    result_to_html_table (QueryResult.error msg) = "Error: " ++ msg
    ∧ create_map_canvas (QueryResult.error msg) = "Error: " ++ msg :=
  ⟨rfl, rfl⟩

end CountryCounter
